import Mathlib

/-
Verification of the Rinascimento Oscuro session relay server (src/server.js).
The in-memory session registry, connection bindings, and the modern protocol
handlers are embedded as pure Lean functions; JS `Map` objects become
association lists preserving insertion order, and socket-side mutable fields
become an explicit SocketState record.
-/

namespace Rin

/-- Opaque JSON-like value for character attributes and other client blobs. -/
inductive JVal where
  | num (n : Int)
  | str (s : String)
  deriving DecidableEq, Repr

abbrev Attrs := List (String × JVal)

/-- Association-list lookup: models JS `Map.get` / object key access
(first entry with the key wins). -/
def lookupA {β : Type} : List (String × β) → String → Option β
  | [], _ => none
  | (k, v) :: rest, key => if k = key then some v else lookupA rest key

/-- Models JS `Map.has`. -/
def hasA {β : Type} (l : List (String × β)) (key : String) : Bool :=
  (lookupA l key).isSome

/-- Models JS `Map.set`: replaces in place when the key exists (insertion
order preserved), otherwise appends at the end. -/
def setA {β : Type} : List (String × β) → String → β → List (String × β)
  | [], key, v => [(key, v)]
  | (k, w) :: rest, key, v =>
    if k = key then (key, v) :: rest else (k, w) :: setA rest key v

/-- One participant inside a session, as built by the join handlers.
The `character` attribute object does not exist until the first
characterUpdate assigns it (JS: the field is `undefined`). -/
structure PlayerRecord where
  id : String
  name : String
  characterName : String
  characterConcept : String
  character : Option Attrs := none
  isMaster : Bool
  online : Bool
  joinedAt : Nat
  deriving DecidableEq, Repr

/-- The payload of a modern `gameStateUpdate` event, with the fields the
server reads (`type`, `playerName`, `note`, `roll.total`) plus the fields
the characterUpdate broadcast fills in; unknown extra fields are opaque to
the server and omitted. `rollTotal` models `data.roll?.total`. -/
structure GSPayload where
  type : String
  playerId : Option String := none
  playerName : Option String := none
  note : Option String := none
  rollTotal : Option Int := none
  character : Option Attrs := none
  deriving DecidableEq, Repr

/-- One appended game-log record (modern `gameStateUpdate` shape). -/
structure LogEntry where
  timestamp : Nat
  type : String
  author : String
  content : String
  data : GSPayload
  deriving DecidableEq, Repr

/-- One session object as stored in the global `sessions` map. -/
structure Session where
  id : String
  masterId : Option String
  players : List (String × PlayerRecord)
  gameLog : List LogEntry
  gameState : List (String × JVal)
  gmNotes : Option String := none
  createdAt : Nat
  lastActivity : Nat
  deriving DecidableEq, Repr

/-- The mutable fields the server stashes on each socket object
(`socket.sessionId`, `socket.playerId`, `socket.isMaster`); all are
absent (falsy) on a fresh connection. -/
structure SocketState where
  id : String
  sessionId : Option String := none
  playerId : Option String := none
  isMaster : Bool := false
  deriving DecidableEq, Repr

/-- socket.io room membership: room name to member connection ids. -/
abbrev Rooms := List (String × List String)

def roomMembers (rooms : Rooms) (room : String) : List String :=
  (lookupA rooms room).getD []

/-- Models `socket.join(room)`: a no-op when already a member. -/
def joinRoom (rooms : Rooms) (room : String) (conn : String) : Rooms :=
  let ms := roomMembers rooms room
  if conn ∈ ms then rooms else setA rooms room (ms ++ [conn])

/-- The summary objects produced by the `getActiveSessions` handler. -/
structure SessionSummary where
  sessionId : String
  playerCount : Nat
  hasMaster : Bool
  createdAt : Nat
  deriving DecidableEq, Repr

/-- Outbound events the modeled handlers can emit. -/
inductive Event where
  | sessionCreated (sessionId : String) (success : Bool)
  | sessionError (message : String) (code : Option String)
  | joinedSession (sessionId : String) (players : List PlayerRecord) (gameLog : List LogEntry)
  | playerJoined (playerId : String) (playerData : PlayerRecord) (isMaster : Bool)
  | playerUpdate (player : PlayerRecord)
  | gameStateUpdateEvt (data : GSPayload)
  | activeSessions (sessions : List SessionSummary)
  | gmNotesSaved
  | player_disconnected (playerId : String) (playerName : String)
  deriving DecidableEq, Repr

/-- The three fanout primitives the server uses: `socket.emit` (sender only),
`socket.to(room).emit` (room minus sender), `io.to(room).emit` (whole room). -/
inductive Target where
  | sender
  | roomExceptSender (room : String)
  | wholeRoom (room : String)
  deriving DecidableEq, Repr

abbrev Emit := Target × Event

/-- Resolves a fanout target to the concrete recipient connection ids. -/
def resolveTarget (rooms : Rooms) (senderId : String) : Target → List String
  | Target.sender => [senderId]
  | Target.roomExceptSender r => (roomMembers rooms r).filter (fun c => c ≠ senderId)
  | Target.wholeRoom r => roomMembers rooms r

/-- Server-global mutable state: the `sessions` map and the room membership. -/
structure ServerState where
  sessions : List (String × Session)
  rooms : Rooms
  deriving DecidableEq, Repr

/-- Result of running one handler: the new global state, the (possibly
rebound) socket, and the emitted events with their fanout targets. -/
structure HandlerOut where
  state : ServerState
  socket : SocketState
  emits : List Emit
  deriving DecidableEq, Repr

/-- JS truthy-or `a || b` on an optional string: `none` and the empty
string are both falsy. -/
def jsOr (a : Option String) (b : String) : String :=
  match a with
  | some s => if s = "" then b else s
  | none => b

/-- Renders `data.roll?.total` inside the template literal
`Tiro dadi: ${data.roll?.total}`; an absent total prints as "undefined". -/
def showRollTotal : Option Int → String
  | some n => toString n
  | none => "undefined"

/-- The `playerData` object supplied to the join handlers. -/
structure PlayerData where
  name : String
  characterName : Option String := none
  characterConcept : Option String := none
  deriving DecidableEq, Repr

/-- `session.masterId && session.players.get(session.masterId)?.online`:
true exactly when a master id is set and that player exists and is online. -/
def masterLive (s : Session) : Bool :=
  match s.masterId with
  | none => false
  | some m =>
    match lookupA s.players m with
    | none => false
    | some p => p.online

/-- The `createSession` handler (src/server.js:59). The random suffix drawn
from Math.random is passed in as `genId`. -/
def createSession (st : ServerState) (sock : SocketState) (genId : String) (now : Nat) :
    HandlerOut :=
  let sessionId := "rinascimento-" ++ genId
  let session : Session := {
    id := sessionId, masterId := none, players := [], gameLog := [],
    gameState := [], createdAt := now, lastActivity := now }
  { state := { st with sessions := setA st.sessions sessionId session },
    socket := sock,
    emits := [(Target.sender, Event.sessionCreated sessionId true)] }

/-- The `joinSession` handler (src/server.js:82). -/
def joinSession (st : ServerState) (sock : SocketState) (sessionId : String) (now : Nat) :
    HandlerOut :=
  match lookupA st.sessions sessionId with
  | none =>
    { state := st, socket := sock,
      emits := [(Target.sender,
        Event.sessionError "Sessione non trovata" (some "SESSION_NOT_FOUND"))] }
  | some session =>
    let rooms := joinRoom st.rooms sessionId sock.id
    let session := { session with lastActivity := now }
    { state := { sessions := setA st.sessions sessionId session, rooms := rooms },
      socket := { sock with sessionId := some sessionId },
      emits := [(Target.sender,
        Event.joinedSession sessionId (session.players.map Prod.snd) session.gameLog)] }

/-- The `joinAsGameMaster` handler (src/server.js:110). -/
def joinAsGameMaster (st : ServerState) (sock : SocketState) (sessionId : String)
    (pd : PlayerData) (now : Nat) : HandlerOut :=
  match lookupA st.sessions sessionId with
  | none =>
    { state := st, socket := sock,
      emits := [(Target.sender, Event.sessionError "Sessione non trovata" none)] }
  | some session =>
    if masterLive session then
      { state := st, socket := sock,
        emits := [(Target.sender,
          Event.sessionError "C\x27è già un Game Master in questa sessione" none)] }
    else
      let player : PlayerRecord := {
        id := sock.id, name := pd.name,
        characterName := pd.characterName.getD "",
        characterConcept := pd.characterConcept.getD "",
        isMaster := true, online := true, joinedAt := now }
      let session := { session with
        players := setA session.players sock.id player,
        masterId := some sock.id,
        lastActivity := now }
      { state := { st with sessions := setA st.sessions sessionId session },
        socket := { sock with playerId := some sock.id, isMaster := true },
        emits := [
          (Target.sender, Event.playerJoined sock.id player true),
          (Target.roomExceptSender sessionId, Event.playerUpdate player)] }

/-- The `joinAsPlayer` handler (src/server.js:161). -/
def joinAsPlayer (st : ServerState) (sock : SocketState) (sessionId : String)
    (pd : PlayerData) (now : Nat) : HandlerOut :=
  match lookupA st.sessions sessionId with
  | none =>
    { state := st, socket := sock,
      emits := [(Target.sender, Event.sessionError "Sessione non trovata" none)] }
  | some session =>
    let player : PlayerRecord := {
      id := sock.id, name := pd.name,
      characterName := pd.characterName.getD "",
      characterConcept := pd.characterConcept.getD "",
      isMaster := false, online := true, joinedAt := now }
    let session := { session with
      players := setA session.players sock.id player,
      lastActivity := now }
    { state := { st with sessions := setA st.sessions sessionId session },
      socket := { sock with playerId := some sock.id, isMaster := false },
      emits := [
        (Target.sender, Event.playerJoined sock.id player false),
        (Target.roomExceptSender sessionId, Event.playerUpdate player)] }

/-- The `rejoinSession` handler (src/server.js:203). -/
def rejoinSession (st : ServerState) (sock : SocketState) (sessionId playerId : String)
    (now : Nat) : HandlerOut :=
  match lookupA st.sessions sessionId with
  | none =>
    { state := st, socket := sock,
      emits := [(Target.sender,
        Event.sessionError "Impossibile riconnettersi alla sessione" none)] }
  | some session =>
    match lookupA session.players playerId with
    | none =>
      { state := st, socket := sock,
        emits := [(Target.sender,
          Event.sessionError "Impossibile riconnettersi alla sessione" none)] }
    | some player =>
      let rooms := joinRoom st.rooms sessionId sock.id
      let player := { player with online := true }
      let session := { session with
        players := setA session.players playerId player,
        lastActivity := now }
      { state := { sessions := setA st.sessions sessionId session, rooms := rooms },
        socket := { sock with
                      sessionId := some sessionId, playerId := some playerId,
                      isMaster := player.isMaster },
        emits := [
          (Target.sender, Event.playerJoined playerId player player.isMaster),
          (Target.roomExceptSender sessionId, Event.playerUpdate player)] }

/-- The payload of a `characterUpdate` event. -/
structure CharacterUpdateData where
  character : Option Attrs := none
  deriving DecidableEq, Repr

/-- The JS object spread `{ ...old, ...patch }`: keys of `old` in their
original order with values overridden by `patch` where present, followed
by keys of `patch` not in `old`, in patch order. -/
def mergeAttrs (old patch : Attrs) : Attrs :=
  old.map (fun kv =>
    match lookupA patch kv.1 with
    | some v => (kv.1, v)
    | none => kv)
  ++ patch.filter (fun kv => !(hasA old kv.1))

/-- The `characterUpdate` handler (src/server.js:238). -/
def characterUpdate (st : ServerState) (sock : SocketState) (d : CharacterUpdateData)
    (now : Nat) : HandlerOut :=
  match sock.sessionId, sock.playerId with
  | some sid, some pid =>
    (match lookupA st.sessions sid with
     | none => { state := st, socket := sock, emits := [] }
     | some session =>
       match lookupA session.players pid with
       | none => { state := st, socket := sock, emits := [] }
       | some player =>
         let player :=
           match d.character with
           | some patch =>
             { player with character := some (mergeAttrs (player.character.getD []) patch) }
           | none => player
         let session := { session with
           players := setA session.players pid player,
           lastActivity := now }
         { state := { st with sessions := setA st.sessions sid session },
           socket := sock,
           emits := [(Target.roomExceptSender sid,
             Event.gameStateUpdateEvt { type := "characterUpdate"
                                        playerId := some pid
                                        playerName := some player.name
                                        character := d.character })] })
  | _, _ => { state := st, socket := sock, emits := [] }

/-- The `gameStateUpdate` handler (src/server.js:263). -/
def gameStateUpdate (st : ServerState) (sock : SocketState) (d : GSPayload) (now : Nat) :
    HandlerOut :=
  match sock.sessionId with
  | none => { state := st, socket := sock, emits := [] }
  | some sid =>
    match lookupA st.sessions sid with
    | none => { state := st, socket := sock, emits := [] }
    | some session =>
      let gameLog :=
        if d.type = "diceRoll" ∨ d.type = "gmNote" then
          session.gameLog ++ [{
            timestamp := now, type := d.type,
            author := jsOr d.playerName "Sistema",
            content := jsOr d.note ("Tiro dadi: " ++ showRollTotal d.rollTotal),
            data := d }]
        else session.gameLog
      let session := { session with gameLog := gameLog, lastActivity := now }
      { state := { st with sessions := setA st.sessions sid session },
        socket := sock,
        emits := [(Target.wholeRoom sid, Event.gameStateUpdateEvt d)] }

/-- The summary the `getActiveSessions` loop pushes for one session, or
none when the session has no online player. -/
def summaryOf (sid : String) (s : Session) : Option SessionSummary :=
  let onlineCount := (s.players.filter (fun kv => kv.2.online)).length
  if 0 < onlineCount then
    some { sessionId := sid, playerCount := onlineCount,
           hasMaster := masterLive s, createdAt := s.createdAt }
  else none

/-- Insertion step of the stable sort with comparator
`(a, b) => b.createdAt - a.createdAt` (descending by createdAt). -/
def insertDesc (x : SessionSummary) : List SessionSummary → List SessionSummary
  | [] => [x]
  | y :: ys => if x.createdAt ≤ y.createdAt then y :: insertDesc x ys else x :: y :: ys

/-- Stable sort by createdAt descending, as `Array.prototype.sort` does with
the comparator in the source. -/
def sortDesc (l : List SessionSummary) : List SessionSummary :=
  l.foldl (fun acc x => insertDesc x acc) []

/-- The `getActiveSessions` handler (src/server.js:287). -/
def getActiveSessions (st : ServerState) (sock : SocketState) : HandlerOut :=
  let active := st.sessions.filterMap (fun kv => summaryOf kv.1 kv.2)
  { state := st, socket := sock,
    emits := [(Target.sender, Event.activeSessions (sortDesc active))] }

/-- The payload of a `gmNotesUpdate` event. -/
structure GmNotesData where
  notes : Option String := none
  deriving DecidableEq, Repr

/-- The `gmNotesUpdate` handler (src/server.js:314). -/
def gmNotesUpdate (st : ServerState) (sock : SocketState) (d : GmNotesData) (now : Nat) :
    HandlerOut :=
  match sock.sessionId, sock.isMaster with
  | some sid, true =>
    (match lookupA st.sessions sid with
     | none => { state := st, socket := sock, emits := [] }
     | some session =>
       let session := { session with gmNotes := d.notes, lastActivity := now }
       { state := { st with sessions := setA st.sessions sid session },
         socket := sock,
         emits := [(Target.sender, Event.gmNotesSaved)] })
  | _, _ => { state := st, socket := sock, emits := [] }

/-- The `disconnect` handler (src/server.js:422). -/
def disconnect (st : ServerState) (sock : SocketState) (now : Nat) : HandlerOut :=
  match sock.sessionId with
  | none => { state := st, socket := sock, emits := [] }
  | some sid =>
    match lookupA st.sessions sid with
    | none => { state := st, socket := sock, emits := [] }
    | some session =>
      match lookupA session.players sock.id with
      | none => { state := st, socket := sock, emits := [] }
      | some player =>
        let player := { player with online := false }
        let session := { session with
          players := setA session.players sock.id player,
          lastActivity := now }
        { state := { st with sessions := setA st.sessions sid session },
          socket := sock,
          emits := [
            (Target.roomExceptSender sid, Event.playerUpdate player),
            (Target.roomExceptSender sid, Event.player_disconnected sock.id player.name)] }

/-- `Array.from(session.players.values()).every(p => !p.online)`. -/
def allPlayersOffline (s : Session) : Bool :=
  s.players.all (fun kv => !kv.2.online)

/-- The idle threshold of the cleanup interval (one hour in milliseconds). -/
def oneHourMs : Nat := 3600000

/-- The periodic cleanup sweep (src/server.js:33): deletes every session
whose players are all offline and whose lastActivity is more than one hour
before `now`. -/
def sweep (sessions : List (String × Session)) (now : Nat) : List (String × Session) :=
  sessions.filter (fun kv =>
    !(allPlayersOffline kv.2 && decide (oneHourMs < now - kv.2.lastActivity)))

/-- A session id matches the pattern `rinascimento-*`. -/
def matchesRinPattern (sid : String) : Prop :=
  ∃ g, sid = "rinascimento-" ++ g

/-- One inbound operation of the session/presence protocol, tagged with the
connection that sends it; `now` is the wall-clock instant and `genId` the
random suffix drawn inside createSession. -/
inductive Op where
  | createSession (conn genId : String) (now : Nat)
  | joinSession (conn sessionId : String) (now : Nat)
  | joinAsGameMaster (conn sessionId : String) (pd : PlayerData) (now : Nat)
  | joinAsPlayer (conn sessionId : String) (pd : PlayerData) (now : Nat)
  | rejoinSession (conn sessionId playerId : String) (now : Nat)
  | disconnect (conn : String) (now : Nat)
  deriving DecidableEq, Repr

def Op.isRejoin : Op → Bool
  | .rejoinSession _ _ _ _ => true
  | _ => false

/-- The whole server: global state plus the per-connection socket objects. -/
structure World where
  state : ServerState
  socks : List (String × SocketState)
  deriving DecidableEq, Repr

/-- The socket object of a connection (fresh one when first seen). -/
def getSock (w : World) (conn : String) : SocketState :=
  (lookupA w.socks conn).getD { id := conn }

def applyOut (w : World) (conn : String) (out : HandlerOut) : World :=
  { state := out.state, socks := setA w.socks conn out.socket }

/-- One protocol step: dispatch the operation to its handler. -/
def stepOp (w : World) : Op → World
  | .createSession conn genId now =>
    applyOut w conn (createSession w.state (getSock w conn) genId now)
  | .joinSession conn sid now =>
    applyOut w conn (joinSession w.state (getSock w conn) sid now)
  | .joinAsGameMaster conn sid pd now =>
    applyOut w conn (joinAsGameMaster w.state (getSock w conn) sid pd now)
  | .joinAsPlayer conn sid pd now =>
    applyOut w conn (joinAsPlayer w.state (getSock w conn) sid pd now)
  | .rejoinSession conn sid pid now =>
    applyOut w conn (rejoinSession w.state (getSock w conn) sid pid now)
  | .disconnect conn now =>
    applyOut w conn (disconnect w.state (getSock w conn) now)

def initialWorld : World :=
  { state := { sessions := [], rooms := [] }, socks := [] }

/-- Run a sequential interleaving of operations from server start. -/
def runOps (ops : List Op) : World :=
  ops.foldl stepOp initialWorld

/-- Number of player records of a session that are a live master
(`isMaster = true` and `online = true`). -/
def liveMasterCount (s : Session) : Nat :=
  (s.players.filter (fun kv => kv.2.isMaster && kv.2.online)).length

/-- `liveMasterCount` of the named session, 0 when the session is absent. -/
def liveMasterCountAt (w : World) (sid : String) : Nat :=
  match lookupA w.state.sessions sid with
  | some s => liveMasterCount s
  | none => 0

/-- The per-session invariant behind the single-live-master property: player
keys are unique and every live master sits at the key `masterId` points to. -/
def SessionInv (s : Session) : Prop :=
  (s.players.map Prod.fst).Nodup ∧
  ∀ kv ∈ s.players, kv.2.isMaster = true → kv.2.online = true → s.masterId = some kv.1

def WorldInv (w : World) : Prop :=
  ∀ kv ∈ w.state.sessions, SessionInv kv.2

/-- Repeated `rejoinSession` calls with the same identity from the same
socket, one call per listed instant; returns the final state and socket and
the per-call emission lists (in call order). -/
def rejoinN (st : ServerState) (sock : SocketState) (sid pid : String) :
    List Nat → ServerState × SocketState × List (List Emit)
  | [] => (st, sock, [])
  | t :: ts =>
    let out := rejoinSession st sock sid pid t
    let rest := rejoinN out.state out.socket sid pid ts
    (rest.1, rest.2.1, out.emits :: rest.2.2)

/-- Operations available to a connection that only ever uses the
role-binding joins (never joinSession / rejoinSession / legacy join). -/
inductive JoinOnlyOp where
  | gm (sessionId : String) (pd : PlayerData) (now : Nat)
  | player (sessionId : String) (pd : PlayerData) (now : Nat)
  deriving DecidableEq, Repr

/-- Run a sequence of joinAsGameMaster / joinAsPlayer calls from one socket. -/
def runJoinOnly (st : ServerState) (sock : SocketState) :
    List JoinOnlyOp → ServerState × SocketState
  | [] => (st, sock)
  | .gm sid pd now :: rest =>
    let out := joinAsGameMaster st sock sid pd now
    runJoinOnly out.state out.socket rest
  | .player sid pd now :: rest =>
    let out := joinAsPlayer st sock sid pd now
    runJoinOnly out.state out.socket rest

/- Concrete inputs used by the counterexamples and witnesses below. -/

def pdAnna : PlayerData := { name := "Anna" }

def pdBruno : PlayerData := { name := "Bruno" }

/-- Interleaving that brings two live masters into one session: the first
master joins (via joinSession + joinAsGameMaster), disconnects, a second
master claims the vacant slot, and then the first master rejoins. -/
def c1Ops : List Op := [
  Op.createSession "c0" "s1" 0,
  Op.joinSession "A" "rinascimento-s1" 1,
  Op.joinAsGameMaster "A" "rinascimento-s1" pdAnna 2,
  Op.disconnect "A" 3,
  Op.joinAsGameMaster "B" "rinascimento-s1" pdBruno 4,
  Op.rejoinSession "A2" "rinascimento-s1" "A" 5]

/-- A small rejoin-free interleaving. -/
def c1OkOps : List Op := [
  Op.createSession "c0" "s1" 0,
  Op.joinSession "A" "rinascimento-s1" 1,
  Op.joinAsGameMaster "A" "rinascimento-s1" pdAnna 2]

def c2Master : PlayerRecord := {
  id := "M", name := "Marta", characterName := "", characterConcept := "",
  isMaster := true, online := true, joinedAt := 1 }

def c2Session : Session := {
  id := "rinascimento-x", masterId := some "M", players := [("M", c2Master)],
  gameLog := [], gameState := [], createdAt := 0, lastActivity := 1 }

def c2State : ServerState :=
  { sessions := [("rinascimento-x", c2Session)], rooms := [("rinascimento-x", ["M"])] }

def c2Sock : SocketState := { id := "B2" }

def c3P1 : PlayerRecord := {
  id := "P1", name := "Pia", characterName := "", characterConcept := "",
  isMaster := false, online := false, joinedAt := 2 }

def c3Q : PlayerRecord := {
  id := "Q", name := "Gio", characterName := "", characterConcept := "",
  isMaster := false, online := true, joinedAt := 2 }

def c3Session : Session := {
  id := "rinascimento-r", masterId := none, players := [("P1", c3P1), ("Q", c3Q)],
  gameLog := [], gameState := [], createdAt := 0, lastActivity := 3 }

def c3State : ServerState :=
  { sessions := [("rinascimento-r", c3Session)], rooms := [("rinascimento-r", ["Q"])] }

def c3Sock : SocketState := { id := "P1b" }

def c4Session : Session := {
  id := "rinascimento-g", masterId := none, players := [], gameLog := [],
  gameState := [], createdAt := 0, lastActivity := 0 }

def c4State : ServerState :=
  { sessions := [("rinascimento-g", c4Session)], rooms := [("rinascimento-g", ["S4"])] }

def c4Sock : SocketState := { id := "S4", sessionId := some "rinascimento-g" }

/-- A gmNote payload whose note field is supplied but is the empty string. -/
def c4EmptyNote : GSPayload := { type := "gmNote", playerName := some "", note := some "" }

/-- The dice-roll payload of the spec example: `{type:"diceRoll", roll:{total:15}}`. -/
def c4Dice : GSPayload := { type := "diceRoll", playerName := some "Pia", rollTotal := some 15 }

/-- A payload of a type the handler does not log (neither diceRoll nor
gmNote): it must still be rebroadcast to the whole room. -/
def c4Other : GSPayload := { type := "mapPing", playerName := some "Pia" }

def c5Offline : PlayerRecord := {
  id := "O", name := "Olga", characterName := "", characterConcept := "",
  isMaster := false, online := false, joinedAt := 0 }

def c5Stale : Session := {
  id := "rinascimento-old", masterId := none, players := [("O", c5Offline)],
  gameLog := [], gameState := [], createdAt := 0, lastActivity := 0 }

def c7Player : PlayerRecord := {
  id := "P7", name := "Nora", characterName := "", characterConcept := "",
  character := some [("a", JVal.num 1)], isMaster := false, online := true, joinedAt := 0 }

def c7Session : Session := {
  id := "rinascimento-c", masterId := none, players := [("P7", c7Player)],
  gameLog := [], gameState := [], createdAt := 0, lastActivity := 0 }

def c7State : ServerState :=
  { sessions := [("rinascimento-c", c7Session)], rooms := [("rinascimento-c", ["P7"])] }

def c7Sock : SocketState :=
  { id := "P7", sessionId := some "rinascimento-c", playerId := some "P7" }

def c8Session : Session := {
  id := "rinascimento-n", masterId := some "GM", players := [], gameLog := [],
  gameState := [], createdAt := 0, lastActivity := 0 }

def c8State : ServerState :=
  { sessions := [("rinascimento-n", c8Session)], rooms := [] }

def c8MasterSock : SocketState :=
  { id := "GM", sessionId := some "rinascimento-n", playerId := some "GM", isMaster := true }

def c8PlainSock : SocketState :=
  { id := "PL", sessionId := some "rinascimento-n", playerId := some "PL", isMaster := false }

def c8Notes : GmNotesData := { notes := some "segreti del master" }

def c9Victim : PlayerRecord := {
  id := "V", name := "Vera", characterName := "", characterConcept := "",
  isMaster := false, online := true, joinedAt := 5 }

/-- A pre-existing session whose id the new random id collides with. -/
def c9Session : Session := {
  id := "rinascimento-abc", masterId := none, players := [("V", c9Victim)],
  gameLog := [], gameState := [], createdAt := 5, lastActivity := 5 }

def c9State : ServerState :=
  { sessions := [("rinascimento-abc", c9Session)], rooms := [] }

def c9Sock : SocketState := { id := "C9" }

def c10Session : Session := {
  id := "rinascimento-t", masterId := none, players := [], gameLog := [],
  gameState := [], createdAt := 0, lastActivity := 0 }

def c10State : ServerState :=
  { sessions := [("rinascimento-t", c10Session)], rooms := [("rinascimento-t", ["H"])] }

def c10Sock : SocketState := { id := "W" }

def c10Ops : List JoinOnlyOp := [
  JoinOnlyOp.gm "rinascimento-t" pdAnna 1,
  JoinOnlyOp.player "rinascimento-t" pdBruno 2]

def c10Char : CharacterUpdateData := { character := some [("x", JVal.num 3)] }

def c10Payload : GSPayload := { type := "diceRoll", rollTotal := some 7 }

/-- Author/content view of a session's game log (empty when absent). -/
def gameLogView (st : ServerState) (sid : String) : List (String × String) :=
  match lookupA st.sessions sid with
  | some s => s.gameLog.map (fun e => (e.author, e.content))
  | none => []

/- Lemmas about the association-list operations. -/

theorem lookupA_setA_self {β : Type} (l : List (String × β)) (k : String) (v : β) :
    lookupA (setA l k v) k = some v := by
  induction l with
  | nil => simp [setA, lookupA]
  | cons hd tl ih =>
    obtain ⟨k0, w0⟩ := hd
    by_cases h : k0 = k
    · simp [setA, h, lookupA]
    · simp [setA, h, lookupA, ih]

theorem lookupA_setA_ne {β : Type} (l : List (String × β)) (k k' : String) (v : β)
    (h : k' ≠ k) : lookupA (setA l k v) k' = lookupA l k' := by
  induction l with
  | nil => simp [setA, lookupA, Ne.symm h]
  | cons hd tl ih =>
    obtain ⟨k0, w0⟩ := hd
    by_cases h0 : k0 = k
    · subst h0
      simp [setA, lookupA, Ne.symm h]
    · simp [setA, h0, lookupA, ih]

theorem mem_setA {β : Type} {l : List (String × β)} {k : String} {v : β} {kv : String × β}
    (h : kv ∈ setA l k v) : kv ∈ l ∨ kv = (k, v) := by
  induction l with
  | nil => simpa [setA] using h
  | cons hd tl ih =>
    obtain ⟨k0, w0⟩ := hd
    by_cases h0 : k0 = k
    · simp only [setA, if_pos h0, List.mem_cons] at h
      rcases h with h | h
      · exact Or.inr h
      · exact Or.inl (List.mem_cons_of_mem _ h)
    · simp only [setA, if_neg h0, List.mem_cons] at h
      rcases h with h | h
      · exact Or.inl (by simp [h])
      · rcases ih h with h1 | h1
        · exact Or.inl (List.mem_cons_of_mem _ h1)
        · exact Or.inr h1

theorem mem_keys_setA {β : Type} {l : List (String × β)} {k a : String} {v : β}
    (h : a ∈ (setA l k v).map Prod.fst) : a ∈ l.map Prod.fst ∨ a = k := by
  simp only [List.mem_map] at h
  obtain ⟨kv, hkv, rfl⟩ := h
  rcases mem_setA hkv with h1 | h1
  · exact Or.inl (List.mem_map_of_mem _ h1)
  · subst h1; exact Or.inr rfl

theorem nodup_keys_setA {β : Type} {l : List (String × β)} (k : String) (v : β)
    (h : (l.map Prod.fst).Nodup) : ((setA l k v).map Prod.fst).Nodup := by
  induction l with
  | nil => simp [setA]
  | cons hd tl ih =>
    obtain ⟨k0, w0⟩ := hd
    simp only [List.map_cons, List.nodup_cons] at h
    by_cases h0 : k0 = k
    · subst h0
      simpa [setA, List.nodup_cons] using h
    · simp only [setA, if_neg h0, List.map_cons, List.nodup_cons]
      refine ⟨fun hmem => ?_, ih h.2⟩
      rcases mem_keys_setA hmem with h1 | h1
      · exact h.1 h1
      · exact h0 h1

theorem lookupA_eq_of_mem_nodup {β : Type} {l : List (String × β)} {k : String} {v : β}
    (hn : (l.map Prod.fst).Nodup) (hm : (k, v) ∈ l) : lookupA l k = some v := by
  induction l with
  | nil => cases hm
  | cons hd tl ih =>
    obtain ⟨k0, w0⟩ := hd
    simp only [List.map_cons, List.nodup_cons] at hn
    rcases List.mem_cons.mp hm with h | h
    · obtain ⟨h1, h2⟩ := Prod.mk.injEq .. ▸ h
      simp [lookupA, h1.symm, h2]
    · have hk : k0 ≠ k := by
        intro hh
        subst hh
        exact hn.1 (List.mem_map_of_mem Prod.fst h)
      simp [lookupA, hk, ih hn.2 h]

theorem lookupA_mem {β : Type} {l : List (String × β)} {k : String} {v : β}
    (h : lookupA l k = some v) : (k, v) ∈ l := by
  induction l with
  | nil => simp [lookupA] at h
  | cons hd tl ih =>
    obtain ⟨k0, w0⟩ := hd
    by_cases h0 : k0 = k
    · subst h0
      simp only [lookupA, if_true, eq_self_iff_true, Option.some.injEq] at h
      simp [h]
    · simp only [lookupA, if_neg h0] at h
      exact List.mem_cons_of_mem _ (ih h)

theorem length_setA_of_has {β : Type} {l : List (String × β)} {k : String} (v : β)
    (h : hasA l k = true) : (setA l k v).length = l.length := by
  induction l with
  | nil => simp [hasA, lookupA] at h
  | cons hd tl ih =>
    obtain ⟨k0, w0⟩ := hd
    by_cases h0 : k0 = k
    · simp [setA, h0]
    · simp only [hasA, lookupA, if_neg h0] at h
      simp [setA, h0, ih h]

theorem setA_eq_of_lookup {β : Type} {l : List (String × β)} {k : String} {v : β}
    (h : lookupA l k = some v) : setA l k v = l := by
  induction l with
  | nil => simp [lookupA] at h
  | cons hd tl ih =>
    obtain ⟨k0, w0⟩ := hd
    by_cases h0 : k0 = k
    · subst h0
      simp only [lookupA, if_true, eq_self_iff_true, Option.some.injEq] at h
      simp [setA, h]
    · simp only [lookupA, if_neg h0] at h
      simp [setA, h0, ih h]

theorem setA_append_of_lookup_none {β : Type} {l : List (String × β)} {k : String} (v : β)
    (h : lookupA l k = none) : setA l k v = l ++ [(k, v)] := by
  induction l with
  | nil => simp [setA]
  | cons hd tl ih =>
    obtain ⟨k0, w0⟩ := hd
    by_cases h0 : k0 = k
    · simp [lookupA, h0] at h
    · simp only [lookupA, if_neg h0] at h
      simp [setA, h0, ih h]

/- C5: the cleanup sweep. -/

/-- C5: a stored session survives the sweep exactly when it is NOT the case
that all its players are offline and its lastActivity is more than one hour
before now; equivalently, the sweep removes a session iff every player is
offline and the idle threshold is exceeded, and never removes a session with
an online player or recent activity. -/
theorem C5_thm (sessions : List (String × Session)) (now : Nat) (sid : String) (s : Session)
    (hmem : (sid, s) ∈ sessions) :
    ((sid, s) ∈ sweep sessions now ↔
      ¬(allPlayersOffline s = true ∧ oneHourMs < now - s.lastActivity)) := by
  rcases hb : allPlayersOffline s <;> simp [sweep, List.mem_filter, hmem, hb]

theorem C5_thm_witness :
    ("rinascimento-old", c5Stale) ∈ [("rinascimento-old", c5Stale)] ∧
    (("rinascimento-old", c5Stale) ∈ sweep [("rinascimento-old", c5Stale)] 7200001 ↔
      ¬(allPlayersOffline c5Stale = true ∧ oneHourMs < 7200001 - c5Stale.lastActivity)) :=
  ⟨by simp, C5_thm [("rinascimento-old", c5Stale)] 7200001 "rinascimento-old" c5Stale (by simp)⟩

/- C2: joinAsGameMaster with a live master present. -/

/-- C2 (amended): when the target session exists and has a live master,
joinAsGameMaster leaves the whole server state and the socket binding
untouched and emits to the caller exactly one sessionError event carrying
an explanatory message and no code field. -/
theorem C2_thm (st : ServerState) (sock : SocketState) (sid : String) (pd : PlayerData)
    (now : Nat) (s : Session) (hs : lookupA st.sessions sid = some s)
    (hm : masterLive s = true) :
    joinAsGameMaster st sock sid pd now =
      { state := st, socket := sock,
        emits := [(Target.sender,
          Event.sessionError "C\x27è già un Game Master in questa sessione" none)] } := by
  simp [joinAsGameMaster, hs, hm]

theorem C2_thm_witness :
    lookupA c2State.sessions "rinascimento-x" = some c2Session ∧
    masterLive c2Session = true ∧
    joinAsGameMaster c2State c2Sock "rinascimento-x" pdBruno 9 =
      { state := c2State, socket := c2Sock,
        emits := [(Target.sender,
          Event.sessionError "C\x27è già un Game Master in questa sessione" none)] } :=
  ⟨rfl, rfl, C2_thm c2State c2Sock "rinascimento-x" pdBruno 9 c2Session rfl rfl⟩

/-- C2 counterexample to the claim as stated: on a session with a live
master, the one sessionError the caller receives carries no code field at
all — in particular not the code MASTER_ALREADY_PRESENT. -/
theorem C2_counterexample_thm :
    masterLive c2Session = true ∧
    (joinAsGameMaster c2State c2Sock "rinascimento-x" pdBruno 9).emits =
      [(Target.sender,
        Event.sessionError "C\x27è già un Game Master in questa sessione" none)] ∧
    ((joinAsGameMaster c2State c2Sock "rinascimento-x" pdBruno 9).emits.all
      (fun e =>
        match e.2 with
        | Event.sessionError _ (some c) => decide (c ≠ "MASTER_ALREADY_PRESENT")
        | _ => true)) = true := by
  exact ⟨rfl, rfl, rfl⟩

/- C8: gmNotesUpdate. -/

/-- C8: gmNotesUpdate from a non-master binding is a silent no-op (no state
change, no event, in particular no gmNotesSaved); from a master binding
whose session exists it overwrites gmNotes wholesale with the payload's
notes, updates lastActivity, and emits gmNotesSaved to the caller only. -/
theorem C8_thm (st : ServerState) (sock : SocketState) (d : GmNotesData) (now : Nat) :
    (sock.isMaster = false →
      gmNotesUpdate st sock d now = { state := st, socket := sock, emits := [] }) ∧
    (∀ sid s, sock.isMaster = true → sock.sessionId = some sid →
      lookupA st.sessions sid = some s →
      gmNotesUpdate st sock d now =
        { state := { st with
            sessions := setA st.sessions sid
              { s with gmNotes := d.notes, lastActivity := now } },
          socket := sock,
          emits := [(Target.sender, Event.gmNotesSaved)] }) := by
  refine ⟨fun h => ?_, fun sid s hm hsid hs => ?_⟩
  · unfold gmNotesUpdate
    rw [h]
    rcases sock.sessionId with _ | sid2 <;> rfl
  · simp [gmNotesUpdate, hm, hsid, hs]

theorem C8_thm_witness :
    gmNotesUpdate c8State c8PlainSock c8Notes 7 =
      { state := c8State, socket := c8PlainSock, emits := [] } ∧
    gmNotesUpdate c8State c8MasterSock c8Notes 7 =
      { state := { c8State with
          sessions := setA c8State.sessions "rinascimento-n"
            { c8Session with gmNotes := c8Notes.notes, lastActivity := 7 } },
        socket := c8MasterSock,
        emits := [(Target.sender, Event.gmNotesSaved)] } :=
  ⟨(C8_thm c8State c8PlainSock c8Notes 7).1 rfl,
   (C8_thm c8State c8MasterSock c8Notes 7).2 "rinascimento-n" c8Session rfl rfl rfl⟩

/- C9: createSession. -/

/-- C9 (amended): provided the generated identifier does not collide with an
already stored session id, createSession appends a fresh empty session
(no players, empty log, masterId unset, createdAt = lastActivity = now) to
the store, leaves every other session unchanged, and reports the new id
with success to the caller only; the id always matches `rinascimento-*`. -/
theorem C9_thm (st : ServerState) (sock : SocketState) (genId : String) (now : Nat)
    (hfresh : lookupA st.sessions ("rinascimento-" ++ genId) = none) :
    createSession st sock genId now =
      { state := { st with
          sessions := st.sessions ++
            [("rinascimento-" ++ genId,
              { id := "rinascimento-" ++ genId, masterId := none, players := [],
                gameLog := [], gameState := [], createdAt := now, lastActivity := now })] },
        socket := sock,
        emits := [(Target.sender, Event.sessionCreated ("rinascimento-" ++ genId) true)] } ∧
    matchesRinPattern ("rinascimento-" ++ genId) := by
  constructor
  · simp [createSession, setA_append_of_lookup_none _ hfresh]
  · exact ⟨genId, rfl⟩

theorem C9_thm_witness :
    lookupA c9State.sessions ("rinascimento-" ++ "zz9") = none ∧
    (createSession c9State c9Sock "zz9" 42 =
      { state := { c9State with
          sessions := c9State.sessions ++
            [("rinascimento-" ++ "zz9",
              { id := "rinascimento-" ++ "zz9", masterId := none, players := [],
                gameLog := [], gameState := [], createdAt := 42, lastActivity := 42 })] },
        socket := c9Sock,
        emits := [(Target.sender, Event.sessionCreated ("rinascimento-" ++ "zz9") true)] } ∧
      matchesRinPattern ("rinascimento-" ++ "zz9")) :=
  ⟨by decide, C9_thm c9State c9Sock "zz9" 42 (by decide)⟩

/-- C9 counterexample to the claim as stated: the generated identifier is
not checked against the store, so a colliding random suffix ("abc" while
session rinascimento-abc exists, holding player Vera) silently replaces the
existing session with a fresh empty one instead of leaving it unchanged. -/
theorem C9_counterexample_thm :
    hasA c9State.sessions "rinascimento-abc" = true ∧
    c9Session.players ≠ [] ∧
    (createSession c9State c9Sock "abc" 99).state.sessions =
      [("rinascimento-abc",
        { id := "rinascimento-abc", masterId := none, players := [], gameLog := [],
          gameState := [], createdAt := 99, lastActivity := 99 })] := by
  refine ⟨rfl, by decide, rfl⟩

/- Lemmas about the JS object-spread merge. -/

theorem lookupA_append {β : Type} (l1 l2 : List (String × β)) (k : String) :
    lookupA (l1 ++ l2) k =
      match lookupA l1 k with
      | some v => some v
      | none => lookupA l2 k := by
  induction l1 with
  | nil => simp [lookupA]
  | cons hd tl ih =>
    obtain ⟨k0, v0⟩ := hd
    by_cases h0 : k0 = k <;> simp [lookupA, h0, ih]

theorem lookupA_mapVals (old patch : Attrs) (k : String) :
    lookupA (old.map (fun kv =>
      match lookupA patch kv.1 with
      | some v => (kv.1, v)
      | none => kv)) k =
      match lookupA old k with
      | none => none
      | some w =>
        some (match lookupA patch k with
              | some v => v
              | none => w) := by
  induction old with
  | nil => simp [lookupA]
  | cons hd tl ih =>
    obtain ⟨k0, w0⟩ := hd
    by_cases h0 : k0 = k
    · subst h0
      cases hp : lookupA patch k0 <;> simp [lookupA, hp]
    · cases hp : lookupA patch k0 <;> simp [lookupA, h0, hp, ih]

theorem lookupA_filterNotIn (old patch : Attrs) (k : String) (h : hasA old k = false) :
    lookupA (patch.filter (fun kv => !(hasA old kv.1))) k = lookupA patch k := by
  induction patch with
  | nil => simp
  | cons hd tl ih =>
    obtain ⟨k1, v1⟩ := hd
    by_cases h1 : k1 = k
    · subst h1
      simp [List.filter_cons, h, lookupA]
    · cases hg : hasA old k1 <;> simp [List.filter_cons, hg, lookupA, h1, ih]

/-- Point-wise description of `{ ...old, ...patch }`: a key takes the patch
value when the patch has it, and keeps its old value otherwise. -/
theorem lookupA_mergeAttrs (old patch : Attrs) (k : String) :
    lookupA (mergeAttrs old patch) k =
      match lookupA patch k with
      | some v => some v
      | none => lookupA old k := by
  unfold mergeAttrs
  rw [lookupA_append, lookupA_mapVals]
  cases ho : lookupA old k with
  | some w => cases hp : lookupA patch k <;> simp [hp]
  | none =>
    have hh : hasA old k = false := by simp [hasA, ho]
    rw [lookupA_filterNotIn old patch k hh]
    cases hp : lookupA patch k <;> simp [ho]

/- C7: characterUpdate shallow merge. -/

/-- C7: for a bound player, characterUpdate stores the object-spread merge
of the patch into the existing character attributes — every key absent from
the patch keeps its old value, every patch key takes the patch value — and
the broadcast to the rest of the room carries the patch itself, not the
merged state. -/
theorem C7_thm (st : ServerState) (sock : SocketState) (sid pid : String) (patch : Attrs)
    (now : Nat) (s : Session) (p : PlayerRecord)
    (hsid : sock.sessionId = some sid) (hpid : sock.playerId = some pid)
    (hs : lookupA st.sessions sid = some s) (hp : lookupA s.players pid = some p) :
    characterUpdate st sock { character := some patch } now =
      { state := { st with
          sessions := setA st.sessions sid
            { s with
              players := setA s.players pid
                { p with character := some (mergeAttrs (p.character.getD []) patch) },
              lastActivity := now } },
        socket := sock,
        emits := [(Target.roomExceptSender sid,
          Event.gameStateUpdateEvt { type := "characterUpdate"
                                     playerId := some pid
                                     playerName := some p.name
                                     character := some patch })] } ∧
    (∀ k, lookupA (mergeAttrs (p.character.getD []) patch) k =
      match lookupA patch k with
      | some v => some v
      | none => lookupA (p.character.getD []) k) := by
  constructor
  · simp [characterUpdate, hsid, hpid, hs, hp]
  · intro k
    exact lookupA_mergeAttrs (p.character.getD []) patch k

/-- C7 witness: patching a sheet holding `a = 1` with `b = 2` keeps `a = 1`
and adds `b = 2`. -/
theorem C7_thm_witness :
    lookupA (mergeAttrs [("a", JVal.num 1)] [("b", JVal.num 2)]) "a" = some (JVal.num 1) ∧
    lookupA (mergeAttrs [("a", JVal.num 1)] [("b", JVal.num 2)]) "b" = some (JVal.num 2) := by
  have h := C7_thm c7State c7Sock "rinascimento-c" "P7" [("b", JVal.num 2)] 9
    c7Session c7Player rfl rfl (by decide) (by decide)
  exact ⟨h.2 "a", h.2 "b"⟩

/- C4: gameStateUpdate logging and sender-inclusive rebroadcast. -/

/-- C4 (amended): an accepted gameStateUpdate whose type is diceRoll or
gmNote appends exactly one log entry whose author is the payload's player
name when supplied non-empty (else the label Sistema), whose content is the
payload's note when supplied non-empty (else "Tiro dadi: " followed by the
roll total, or "undefined" when absent), and whose data is the full
payload; a payload of any other type leaves the log untouched; and
regardless of type, the original payload is rebroadcast to the whole room,
the sender included. -/
theorem C4_thm (st : ServerState) (sock : SocketState) (sid : String) (d : GSPayload)
    (now : Nat) (s : Session)
    (hsid : sock.sessionId = some sid) (hs : lookupA st.sessions sid = some s)
    (hmem : sock.id ∈ roomMembers st.rooms sid) :
    (d.type = "diceRoll" ∨ d.type = "gmNote" →
      gameStateUpdate st sock d now =
        { state := { st with
            sessions := setA st.sessions sid
              { s with
                gameLog := s.gameLog ++
                  [{ timestamp := now, type := d.type,
                     author := jsOr d.playerName "Sistema",
                     content := jsOr d.note ("Tiro dadi: " ++ showRollTotal d.rollTotal),
                     data := d }],
                lastActivity := now } },
          socket := sock,
          emits := [(Target.wholeRoom sid, Event.gameStateUpdateEvt d)] }) ∧
    (¬(d.type = "diceRoll" ∨ d.type = "gmNote") →
      gameStateUpdate st sock d now =
        { state := { st with
            sessions := setA st.sessions sid
              { s with
                gameLog := s.gameLog,
                lastActivity := now } },
          socket := sock,
          emits := [(Target.wholeRoom sid, Event.gameStateUpdateEvt d)] }) ∧
    (gameStateUpdate st sock d now).emits =
      [(Target.wholeRoom sid, Event.gameStateUpdateEvt d)] ∧
    sock.id ∈ resolveTarget st.rooms sock.id (Target.wholeRoom sid) := by
  refine ⟨fun hty => ?_, fun hty => ?_, ?_, ?_⟩
  · simp [gameStateUpdate, hsid, hs, hty]
  · simp [gameStateUpdate, hsid, hs, hty]
  · by_cases hty : d.type = "diceRoll" ∨ d.type = "gmNote" <;>
      simp [gameStateUpdate, hsid, hs, hty]
  · simpa [resolveTarget] using hmem

/-- C4 witness: the spec example — a diceRoll with total 15 logs one entry
whose content is "Tiro dadi: 15" (containing "15"), author "Pia"; a payload
of the unlogged type mapPing leaves the log untouched; in both cases the
original payload is echoed to the whole room including the sender S4. -/
theorem C4_thm_witness :
    (gameStateUpdate c4State c4Sock c4Dice 60 =
      { state := { c4State with
          sessions := setA c4State.sessions "rinascimento-g"
            { c4Session with
              gameLog := c4Session.gameLog ++
                [{ timestamp := 60, type := c4Dice.type,
                   author := jsOr c4Dice.playerName "Sistema",
                   content := jsOr c4Dice.note ("Tiro dadi: " ++ showRollTotal c4Dice.rollTotal),
                   data := c4Dice }],
              lastActivity := 60 } },
        socket := c4Sock,
        emits := [(Target.wholeRoom "rinascimento-g", Event.gameStateUpdateEvt c4Dice)] } ∧
      gameLogView (gameStateUpdate c4State c4Sock c4Dice 60).state "rinascimento-g" =
        [("Pia", "Tiro dadi: " ++ "15")]) ∧
    (gameStateUpdate c4State c4Sock c4Other 61 =
      { state := { c4State with
          sessions := setA c4State.sessions "rinascimento-g"
            { c4Session with
              gameLog := c4Session.gameLog,
              lastActivity := 61 } },
        socket := c4Sock,
        emits := [(Target.wholeRoom "rinascimento-g", Event.gameStateUpdateEvt c4Other)] }) ∧
    "S4" ∈ resolveTarget c4State.rooms "S4" (Target.wholeRoom "rinascimento-g") := by
  have h1 := C4_thm c4State c4Sock "rinascimento-g" c4Dice 60 c4Session rfl rfl (by decide)
  have h2 := C4_thm c4State c4Sock "rinascimento-g" c4Other 61 c4Session rfl rfl (by decide)
  exact ⟨⟨h1.1 (Or.inl rfl), by decide⟩, h2.2.1 (by decide), h1.2.2.2⟩

/-- C4 counterexample to the claim as stated: a gmNote payload whose note
field is present but empty does not become the log content — JS `||`
treats the empty string as absent, so the entry falls back to the dice
summary (and the empty playerName likewise falls back to Sistema). -/
theorem C4_counterexample_thm :
    c4EmptyNote.note = some "" ∧
    c4EmptyNote.playerName = some "" ∧
    gameLogView (gameStateUpdate c4State c4Sock c4EmptyNote 50).state "rinascimento-g" =
      [("Sistema", "Tiro dadi: undefined")] := by
  exact ⟨rfl, rfl, rfl⟩

/- Lemmas about the descending sort used by getActiveSessions. -/

theorem mem_insertDesc (x a : SessionSummary) (l : List SessionSummary) :
    a ∈ insertDesc x l ↔ a = x ∨ a ∈ l := by
  induction l with
  | nil => simp [insertDesc]
  | cons y ys ih =>
    by_cases h : x.createdAt ≤ y.createdAt
    · simp only [insertDesc, if_pos h, List.mem_cons, ih]
      tauto
    · simp only [insertDesc, if_neg h, List.mem_cons]

theorem pairwise_insertDesc (x : SessionSummary) (l : List SessionSummary)
    (h : l.Pairwise (fun a b => b.createdAt ≤ a.createdAt)) :
    (insertDesc x l).Pairwise (fun a b => b.createdAt ≤ a.createdAt) := by
  induction l with
  | nil => simp [insertDesc]
  | cons y ys ih =>
    rcases List.pairwise_cons.mp h with ⟨hy, hys⟩
    by_cases hc : x.createdAt ≤ y.createdAt
    · simp only [insertDesc, if_pos hc]
      refine List.pairwise_cons.mpr ⟨?_, ih hys⟩
      intro b hb
      rcases (mem_insertDesc x b ys).mp hb with rfl | hb2
      · exact hc
      · exact hy b hb2
    · simp only [insertDesc, if_neg hc]
      refine List.pairwise_cons.mpr ⟨?_, h⟩
      intro b hb
      rcases List.mem_cons.mp hb with rfl | hb2
      · exact (Nat.lt_of_not_le hc).le
      · exact Nat.le_trans (hy b hb2) (Nat.lt_of_not_le hc).le

theorem foldl_insertDesc_mem (l : List SessionSummary) :
    ∀ (acc : List SessionSummary) (a : SessionSummary),
      a ∈ l.foldl (fun acc x => insertDesc x acc) acc ↔ a ∈ acc ∨ a ∈ l := by
  induction l with
  | nil => simp
  | cons x xs ih =>
    intro acc a
    simp only [List.foldl_cons]
    rw [ih, mem_insertDesc]
    simp [List.mem_cons]
    tauto

theorem foldl_insertDesc_pairwise (l : List SessionSummary) :
    ∀ acc : List SessionSummary,
      acc.Pairwise (fun a b => b.createdAt ≤ a.createdAt) →
      (l.foldl (fun acc x => insertDesc x acc) acc).Pairwise
        (fun a b => b.createdAt ≤ a.createdAt) := by
  induction l with
  | nil => exact fun acc h => h
  | cons x xs ih =>
    intro acc h
    simp only [List.foldl_cons]
    exact ih (insertDesc x acc) (pairwise_insertDesc x acc h)

theorem mem_sortDesc (l : List SessionSummary) (a : SessionSummary) :
    a ∈ sortDesc l ↔ a ∈ l := by
  unfold sortDesc
  rw [foldl_insertDesc_mem]
  simp

theorem pairwise_sortDesc (l : List SessionSummary) :
    (sortDesc l).Pairwise (fun a b => b.createdAt ≤ a.createdAt) :=
  foldl_insertDesc_pairwise l [] (by simp)

theorem summaryOf_eq_some (sid : String) (s : Session) (x : SessionSummary) :
    summaryOf sid s = some x ↔
      0 < (s.players.filter (fun kv => kv.2.online)).length ∧
      x = { sessionId := sid,
            playerCount := (s.players.filter (fun kv => kv.2.online)).length,
            hasMaster := masterLive s, createdAt := s.createdAt } := by
  unfold summaryOf
  by_cases h : 0 < (s.players.filter (fun kv => kv.2.online)).length <;>
    simp [h, eq_comm]

theorem masterLive_iff (s : Session) :
    masterLive s = true ↔
      ∃ m p, s.masterId = some m ∧ lookupA s.players m = some p ∧ p.online = true := by
  unfold masterLive
  cases hm : s.masterId with
  | none => simp
  | some m =>
    cases hp : lookupA s.players m with
    | none => simp [hp]
    | some p => simp [hp]

/- C6: getActiveSessions. -/

/-- C6: getActiveSessions changes nothing, answers only the requesting
connection with one activeSessions event, and the reported list contains a
summary exactly for each stored session with at least one online player —
carrying the online-player count, hasMaster (true precisely when masterId
is set and the referenced player is online) and createdAt — ordered by
createdAt descending. -/
theorem C6_thm (st : ServerState) (sock : SocketState) :
    (getActiveSessions st sock).state = st ∧
    (getActiveSessions st sock).socket = sock ∧
    (getActiveSessions st sock).emits =
      [(Target.sender, Event.activeSessions
        (sortDesc (st.sessions.filterMap (fun kv => summaryOf kv.1 kv.2))))] ∧
    (sortDesc (st.sessions.filterMap (fun kv => summaryOf kv.1 kv.2))).Pairwise
      (fun a b => b.createdAt ≤ a.createdAt) ∧
    (∀ x, x ∈ sortDesc (st.sessions.filterMap (fun kv => summaryOf kv.1 kv.2)) ↔
      ∃ sid s, (sid, s) ∈ st.sessions ∧
        0 < (s.players.filter (fun kv => kv.2.online)).length ∧
        x = { sessionId := sid,
              playerCount := (s.players.filter (fun kv => kv.2.online)).length,
              hasMaster := masterLive s, createdAt := s.createdAt }) ∧
    (∀ s : Session, masterLive s = true ↔
      ∃ m p, s.masterId = some m ∧ lookupA s.players m = some p ∧ p.online = true) := by
  refine ⟨rfl, rfl, rfl, pairwise_sortDesc _, fun x => ?_, masterLive_iff⟩
  rw [mem_sortDesc, List.mem_filterMap]
  constructor
  · rintro ⟨⟨sid, s⟩, hmem, hsum⟩
    exact ⟨sid, s, hmem, (summaryOf_eq_some sid s x).mp hsum⟩
  · rintro ⟨sid, s, hmem, hcount, hx⟩
    exact ⟨(sid, s), hmem, (summaryOf_eq_some sid s x).mpr ⟨hcount, hx⟩⟩

/- C3: rejoinSession idempotence. -/

theorem playerRecord_online_eta (p : PlayerRecord) (h : p.online = true) :
    ({ p with online := true } : PlayerRecord) = p := by
  obtain ⟨i, nm, cn, cc, ch, im, onl, j⟩ := p
  cases onl
  · simp at h
  · rfl

/-- One successful rejoinSession call, spelled out. -/
theorem rejoin_step (st : ServerState) (sock : SocketState) (sid pid : String) (now : Nat)
    (s : Session) (p : PlayerRecord)
    (hs : lookupA st.sessions sid = some s) (hp : lookupA s.players pid = some p) :
    rejoinSession st sock sid pid now =
      { state := {
          sessions := setA st.sessions sid
            { s with
                players := setA s.players pid ({ p with online := true }),
                lastActivity := now },
          rooms := joinRoom st.rooms sid sock.id },
        socket := { sock with
                      sessionId := some sid, playerId := some pid,
                      isMaster := p.isMaster },
        emits := [
          (Target.sender,
            Event.playerJoined pid ({ p with online := true }) p.isMaster),
          (Target.roomExceptSender sid,
            Event.playerUpdate ({ p with online := true }))] } := by
  simp [rejoinSession, hs, hp]

theorem rejoinN_cons (st : ServerState) (sock : SocketState) (sid pid : String)
    (t : Nat) (ts : List Nat) :
    rejoinN st sock sid pid (t :: ts) =
      ((rejoinN (rejoinSession st sock sid pid t).state
          (rejoinSession st sock sid pid t).socket sid pid ts).1,
       (rejoinN (rejoinSession st sock sid pid t).state
          (rejoinSession st sock sid pid t).socket sid pid ts).2.1,
       (rejoinSession st sock sid pid t).emits ::
         (rejoinN (rejoinSession st sock sid pid t).state
            (rejoinSession st sock sid pid t).socket sid pid ts).2.2) := rfl

theorem rejoinN_go (sid pid : String) (ts : List Nat) :
    ∀ (st : ServerState) (sock : SocketState) (s : Session) (p : PlayerRecord),
      lookupA st.sessions sid = some s → lookupA s.players pid = some p →
      p.online = true →
      ((rejoinN st sock sid pid ts).2.2 =
        List.replicate ts.length [
          (Target.sender, Event.playerJoined pid p p.isMaster),
          (Target.roomExceptSender sid, Event.playerUpdate p)] ∧
       ∀ s2, lookupA (rejoinN st sock sid pid ts).1.sessions sid = some s2 →
         s2.players.length = s.players.length ∧ lookupA s2.players pid = some p) := by
  induction ts with
  | nil =>
    intro st sock s p hs hp hon
    refine ⟨rfl, fun s2 hs2 => ?_⟩
    have hs2b : lookupA st.sessions sid = some s2 := hs2
    rw [hs] at hs2b
    cases hs2b
    exact ⟨rfl, hp⟩
  | cons t ts ih =>
    intro st sock s p hs hp hon
    have hstep := rejoin_step st sock sid pid t s p hs hp
    rw [playerRecord_online_eta p hon, setA_eq_of_lookup hp] at hstep
    rw [rejoinN_cons, hstep]
    have hs1 : lookupA (setA st.sessions sid ({ s with lastActivity := t })) sid =
        some ({ s with lastActivity := t }) :=
      lookupA_setA_self st.sessions sid ({ s with lastActivity := t })
    obtain ⟨g1, g2⟩ := ih
      { sessions := setA st.sessions sid ({ s with lastActivity := t }),
        rooms := joinRoom st.rooms sid sock.id }
      { sock with sessionId := some sid, playerId := some pid, isMaster := p.isMaster }
      ({ s with lastActivity := t }) p hs1 hp hon
    refine ⟨?_, ?_⟩
    · simp only [List.length_cons, List.replicate_succ]
      exact congrArg _ g1
    · intro s2 hs2
      have h2 := g2 s2 hs2
      exact ⟨h2.1, h2.2⟩

/-- C3: for a session that contains the given playerId, N >= 1 repeated
rejoinSession calls from one socket never change the size of the players
mapping, never signal an error — every call emits exactly the playerJoined
answer to the caller carrying the same record (with online set true) and a
playerUpdate presence broadcast to the rest of the room — and the record
stays stored under the same id. -/
theorem C3_thm (st : ServerState) (sock : SocketState) (sid pid : String)
    (times : List Nat) (s : Session) (p : PlayerRecord)
    (hs : lookupA st.sessions sid = some s) (hp : lookupA s.players pid = some p)
    (hne : times ≠ []) :
    ((rejoinN st sock sid pid times).2.2 =
      List.replicate times.length [
        (Target.sender,
          Event.playerJoined pid ({ p with online := true }) p.isMaster),
        (Target.roomExceptSender sid,
          Event.playerUpdate ({ p with online := true }))] ∧
     ∀ s2, lookupA (rejoinN st sock sid pid times).1.sessions sid = some s2 →
       s2.players.length = s.players.length ∧
       lookupA s2.players pid = some ({ p with online := true })) := by
  cases times with
  | nil => exact absurd rfl hne
  | cons t ts =>
    have hstep := rejoin_step st sock sid pid t s p hs hp
    rw [rejoinN_cons, hstep]
    have hs1 : lookupA
        (setA st.sessions sid
          ({ s with
               players := setA s.players pid ({ p with online := true }),
               lastActivity := t })) sid =
        some ({ s with
                  players := setA s.players pid ({ p with online := true }),
                  lastActivity := t }) :=
      lookupA_setA_self st.sessions sid _
    have hp1 : lookupA
        (setA s.players pid ({ p with online := true } : PlayerRecord)) pid =
        some ({ p with online := true }) :=
      lookupA_setA_self s.players pid _
    obtain ⟨g1, g2⟩ := rejoinN_go sid pid ts
      { sessions := setA st.sessions sid
          ({ s with
               players := setA s.players pid ({ p with online := true }),
               lastActivity := t }),
        rooms := joinRoom st.rooms sid sock.id }
      { sock with sessionId := some sid, playerId := some pid, isMaster := p.isMaster }
      ({ s with
           players := setA s.players pid ({ p with online := true }),
           lastActivity := t })
      ({ p with online := true }) hs1 hp1 rfl
    have hlen : (setA s.players pid ({ p with online := true } : PlayerRecord)).length =
        s.players.length :=
      length_setA_of_has _ (by simp [hasA, hp])
    refine ⟨?_, ?_⟩
    · simp only [List.length_cons, List.replicate_succ]
      refine congrArg _ ?_
      simpa using g1
    · intro s2 hs2
      have h2 := g2 s2 hs2
      refine ⟨h2.1.trans ?_, by simpa using h2.2⟩
      simpa using hlen

/-- C3 witness: two consecutive rejoins of offline player P1 into session
rinascimento-r (roster of two) emit identical answers and broadcasts, and
keep the roster size at two with P1 back online. -/
theorem C3_thm_witness :
    ((rejoinN c3State c3Sock "rinascimento-r" "P1" [10, 11]).2.2 =
      List.replicate 2 [
        (Target.sender,
          Event.playerJoined "P1" ({ c3P1 with online := true }) c3P1.isMaster),
        (Target.roomExceptSender "rinascimento-r",
          Event.playerUpdate ({ c3P1 with online := true }))] ∧
     ∀ s2, lookupA (rejoinN c3State c3Sock "rinascimento-r" "P1" [10, 11]).1.sessions
         "rinascimento-r" = some s2 →
       s2.players.length = c3Session.players.length ∧
       lookupA s2.players "P1" = some ({ c3P1 with online := true })) :=
  C3_thm c3State c3Sock "rinascimento-r" "P1" [10, 11] c3Session c3P1
    rfl rfl (by decide)

/- C10: role-binding joins do not bind the room/session. -/

theorem joinAsGameMaster_frame (st : ServerState) (sock : SocketState) (sid : String)
    (pd : PlayerData) (now : Nat) :
    (joinAsGameMaster st sock sid pd now).state.rooms = st.rooms ∧
    (joinAsGameMaster st sock sid pd now).socket.sessionId = sock.sessionId ∧
    (joinAsGameMaster st sock sid pd now).socket.id = sock.id := by
  unfold joinAsGameMaster
  cases hl : lookupA st.sessions sid with
  | none => exact ⟨rfl, rfl, rfl⟩
  | some s =>
    by_cases hm : masterLive s
    · simp [hm]
    · simp [hm]

theorem joinAsPlayer_frame (st : ServerState) (sock : SocketState) (sid : String)
    (pd : PlayerData) (now : Nat) :
    (joinAsPlayer st sock sid pd now).state.rooms = st.rooms ∧
    (joinAsPlayer st sock sid pd now).socket.sessionId = sock.sessionId ∧
    (joinAsPlayer st sock sid pd now).socket.id = sock.id := by
  unfold joinAsPlayer
  cases hl : lookupA st.sessions sid with
  | none => exact ⟨rfl, rfl, rfl⟩
  | some s => exact ⟨rfl, rfl, rfl⟩

theorem runJoinOnly_frame (ops : List JoinOnlyOp) :
    ∀ (st : ServerState) (sock : SocketState),
      (runJoinOnly st sock ops).1.rooms = st.rooms ∧
      (runJoinOnly st sock ops).2.sessionId = sock.sessionId ∧
      (runJoinOnly st sock ops).2.id = sock.id := by
  induction ops with
  | nil => exact fun st sock => ⟨rfl, rfl, rfl⟩
  | cons op rest ih =>
    intro st sock
    cases op with
    | gm sid pd now =>
      have hf := joinAsGameMaster_frame st sock sid pd now
      have hr := ih (joinAsGameMaster st sock sid pd now).state
        (joinAsGameMaster st sock sid pd now).socket
      exact ⟨hr.1.trans hf.1, hr.2.1.trans hf.2.1, hr.2.2.trans hf.2.2⟩
    | player sid pd now =>
      have hf := joinAsPlayer_frame st sock sid pd now
      have hr := ih (joinAsPlayer st sock sid pd now).state
        (joinAsPlayer st sock sid pd now).socket
      exact ⟨hr.1.trans hf.1, hr.2.1.trans hf.2.1, hr.2.2.trans hf.2.2⟩

theorem characterUpdate_unbound (st : ServerState) (sock : SocketState)
    (d : CharacterUpdateData) (now : Nat) (h : sock.sessionId = none) :
    characterUpdate st sock d now = { state := st, socket := sock, emits := [] } := by
  rcases hp : sock.playerId with _ | pid <;> simp [characterUpdate, h, hp]

theorem gameStateUpdate_unbound (st : ServerState) (sock : SocketState)
    (g : GSPayload) (now : Nat) (h : sock.sessionId = none) :
    gameStateUpdate st sock g now = { state := st, socket := sock, emits := [] } := by
  simp [gameStateUpdate, h]

/-- C10: joinAsGameMaster and joinAsPlayer set the socket's playerId and
role flag but never its sessionId and never touch the room membership, so
a connection that has only ever used those two joins still has no session
binding, and every later characterUpdate or gameStateUpdate it sends is
dropped with no state change and no outbound event. -/
theorem C10_thm (ops : List JoinOnlyOp) (st : ServerState) (sock : SocketState)
    (h : sock.sessionId = none) (d : CharacterUpdateData) (g : GSPayload) (now : Nat) :
    (runJoinOnly st sock ops).2.sessionId = none ∧
    (runJoinOnly st sock ops).1.rooms = st.rooms ∧
    characterUpdate (runJoinOnly st sock ops).1 (runJoinOnly st sock ops).2 d now =
      { state := (runJoinOnly st sock ops).1,
        socket := (runJoinOnly st sock ops).2, emits := [] } ∧
    gameStateUpdate (runJoinOnly st sock ops).1 (runJoinOnly st sock ops).2 g now =
      { state := (runJoinOnly st sock ops).1,
        socket := (runJoinOnly st sock ops).2, emits := [] } ∧
    (∀ sid pd t s, lookupA st.sessions sid = some s → masterLive s = false →
      (joinAsGameMaster st sock sid pd t).socket =
        { sock with playerId := some sock.id, isMaster := true }) ∧
    (∀ sid pd t s, lookupA st.sessions sid = some s →
      (joinAsPlayer st sock sid pd t).socket =
        { sock with playerId := some sock.id, isMaster := false }) := by
  have hframe := runJoinOnly_frame ops st sock
  have hnone : (runJoinOnly st sock ops).2.sessionId = none := hframe.2.1.trans h
  refine ⟨hnone, hframe.1, characterUpdate_unbound _ _ d now hnone,
    gameStateUpdate_unbound _ _ g now hnone, ?_, ?_⟩
  · intro sid pd t s hs hm
    simp [joinAsGameMaster, hs, hm]
  · intro sid pd t s hs
    simp [joinAsPlayer, hs]

/-- C10 witness: after one joinAsGameMaster and one joinAsPlayer from the
fresh connection W, its sessionId is still unset, the rooms are untouched,
and a characterUpdate and a gameStateUpdate from it are both dropped. -/
theorem C10_thm_witness :
    (runJoinOnly c10State c10Sock c10Ops).2.sessionId = none ∧
    (runJoinOnly c10State c10Sock c10Ops).1.rooms = c10State.rooms ∧
    characterUpdate (runJoinOnly c10State c10Sock c10Ops).1
        (runJoinOnly c10State c10Sock c10Ops).2 c10Char 9 =
      { state := (runJoinOnly c10State c10Sock c10Ops).1,
        socket := (runJoinOnly c10State c10Sock c10Ops).2, emits := [] } ∧
    gameStateUpdate (runJoinOnly c10State c10Sock c10Ops).1
        (runJoinOnly c10State c10Sock c10Ops).2 c10Payload 9 =
      { state := (runJoinOnly c10State c10Sock c10Ops).1,
        socket := (runJoinOnly c10State c10Sock c10Ops).2, emits := [] } := by
  have h := C10_thm c10Ops c10State c10Sock rfl c10Char c10Payload 9
  exact ⟨h.1, h.2.1, h.2.2.1, h.2.2.2.1⟩

/- C1: the single-live-master invariant. -/

theorem length_le_one_of_eq_keys (l : List (String × PlayerRecord))
    (hn : (l.map Prod.fst).Nodup) (hall : ∀ a ∈ l, ∀ b ∈ l, a.1 = b.1) :
    l.length ≤ 1 := by
  match l with
  | [] => simp
  | [a] => simp
  | a :: b :: t =>
    exfalso
    have hab : a.1 = b.1 := hall a (by simp) b (by simp)
    simp only [List.map_cons, List.nodup_cons] at hn
    exact hn.1 (by rw [hab]; exact List.mem_cons_self _ _)

theorem sessionInv_liveMasterCount (s : Session) (h : SessionInv s) :
    liveMasterCount s ≤ 1 := by
  obtain ⟨hn, hinv⟩ := h
  unfold liveMasterCount
  apply length_le_one_of_eq_keys
  · exact List.Nodup.sublist (List.Sublist.map Prod.fst (List.filter_sublist _)) hn
  · intro a ha b hb
    rw [List.mem_filter] at ha hb
    have hA := ha.2
    have hB := hb.2
    rw [Bool.and_eq_true] at hA hB
    have h1 := hinv a ha.1 hA.1 hA.2
    have h2 := hinv b hb.1 hB.1 hB.2
    exact Option.some.inj (h1.symm.trans h2)

theorem stepOp_inv (w : World) (op : Op) (hw : WorldInv w) (hnr : op.isRejoin = false) :
    WorldInv (stepOp w op) := by
  cases op with
  | createSession conn genId now =>
    intro kv hkv
    simp only [stepOp, applyOut, createSession] at hkv
    rcases mem_setA hkv with h | h
    · exact hw kv h
    · rw [h]
      exact ⟨by simp, by simp⟩
  | joinSession conn sid now =>
    intro kv hkv
    simp only [stepOp, applyOut] at hkv
    cases hl : lookupA w.state.sessions sid with
    | none =>
      simp only [joinSession, hl] at hkv
      exact hw kv hkv
    | some s =>
      simp only [joinSession, hl] at hkv
      rcases mem_setA hkv with h | h
      · exact hw kv h
      · rw [h]
        exact hw (sid, s) (lookupA_mem hl)
  | joinAsGameMaster conn sid pd now =>
    intro kv hkv
    simp only [stepOp, applyOut] at hkv
    cases hl : lookupA w.state.sessions sid with
    | none =>
      simp only [joinAsGameMaster, hl] at hkv
      exact hw kv hkv
    | some s =>
      by_cases hm : masterLive s
      · simp only [joinAsGameMaster, hl, if_pos hm] at hkv
        exact hw kv hkv
      · simp only [joinAsGameMaster, hl, if_neg hm] at hkv
        rcases mem_setA hkv with h | h
        · exact hw kv h
        · rw [h]
          obtain ⟨hn, hinv⟩ := hw (sid, s) (lookupA_mem hl)
          refine ⟨nodup_keys_setA _ _ hn, ?_⟩
          intro kv2 h2 hM hO
          rcases mem_setA h2 with h3 | h3
          · exfalso
            apply hm
            have hmid := hinv kv2 h3 hM hO
            have hlook : lookupA s.players kv2.1 = some kv2.2 :=
              lookupA_eq_of_mem_nodup hn h3
            unfold masterLive
            rw [hmid]
            show (match lookupA s.players kv2.1 with
                  | none => false
                  | some p => p.online) = true
            rw [hlook]
            exact hO
          · rw [h3]
  | joinAsPlayer conn sid pd now =>
    intro kv hkv
    simp only [stepOp, applyOut] at hkv
    cases hl : lookupA w.state.sessions sid with
    | none =>
      simp only [joinAsPlayer, hl] at hkv
      exact hw kv hkv
    | some s =>
      simp only [joinAsPlayer, hl] at hkv
      rcases mem_setA hkv with h | h
      · exact hw kv h
      · rw [h]
        obtain ⟨hn, hinv⟩ := hw (sid, s) (lookupA_mem hl)
        refine ⟨nodup_keys_setA _ _ hn, ?_⟩
        intro kv2 h2 hM hO
        rcases mem_setA h2 with h3 | h3
        · exact hinv kv2 h3 hM hO
        · exfalso
          rw [h3] at hM
          simp at hM
  | rejoinSession conn sid pid now => simp [Op.isRejoin] at hnr
  | disconnect conn now =>
    intro kv hkv
    simp only [stepOp, applyOut] at hkv
    cases hsid : (getSock w conn).sessionId with
    | none =>
      simp only [disconnect, hsid] at hkv
      exact hw kv hkv
    | some sid =>
      cases hl : lookupA w.state.sessions sid with
      | none =>
        simp only [disconnect, hsid, hl] at hkv
        exact hw kv hkv
      | some s =>
        cases hpl : lookupA s.players (getSock w conn).id with
        | none =>
          simp only [disconnect, hsid, hl, hpl] at hkv
          exact hw kv hkv
        | some p =>
          simp only [disconnect, hsid, hl, hpl] at hkv
          rcases mem_setA hkv with h | h
          · exact hw kv h
          · rw [h]
            obtain ⟨hn, hinv⟩ := hw (sid, s) (lookupA_mem hl)
            refine ⟨nodup_keys_setA _ _ hn, ?_⟩
            intro kv2 h2 hM hO
            rcases mem_setA h2 with h3 | h3
            · exact hinv kv2 h3 hM hO
            · exfalso
              rw [h3] at hO
              simp at hO

theorem foldl_stepOp_inv (ops : List Op) :
    ∀ w : World, WorldInv w → (∀ op ∈ ops, op.isRejoin = false) →
      WorldInv (ops.foldl stepOp w) := by
  induction ops with
  | nil => exact fun w hw _ => hw
  | cons op rest ih =>
    intro w hw hall
    simp only [List.foldl_cons]
    exact ih (stepOp w op)
      (stepOp_inv w op hw (hall op (List.mem_cons_self _ _)))
      (fun o ho => hall o (List.mem_cons_of_mem _ ho))

/-- C1 (amended): after any sequential interleaving of createSession,
joinSession, joinAsGameMaster, joinAsPlayer and disconnect operations
(rejoinSession excluded), every stored session has at most one PlayerRecord
with isMaster = true and online = true. -/
theorem C1_thm (ops : List Op) (hops : ∀ op ∈ ops, op.isRejoin = false)
    (sid : String) (s : Session)
    (hs : lookupA (runOps ops).state.sessions sid = some s) :
    liveMasterCount s ≤ 1 := by
  have hw : WorldInv (runOps ops) := by
    apply foldl_stepOp_inv ops initialWorld ?_ hops
    intro kv hkv
    simp [initialWorld] at hkv
  exact sessionInv_liveMasterCount s (hw (sid, s) (lookupA_mem hs))

/-- C1 witness: a rejoin-free run (create, spectator join, master join)
has at most one live master in its session. -/
theorem C1_thm_witness :
    (∀ op ∈ c1OkOps, op.isRejoin = false) ∧
    liveMasterCountAt (runOps c1OkOps) "rinascimento-s1" ≤ 1 := by
  have h1 : ∀ op ∈ c1OkOps, op.isRejoin = false := by decide
  refine ⟨h1, ?_⟩
  cases hl : lookupA (runOps c1OkOps).state.sessions "rinascimento-s1" with
  | none => simp [liveMasterCountAt, hl]
  | some s =>
    simpa [liveMasterCountAt, hl] using C1_thm c1OkOps h1 "rinascimento-s1" s hl

/-- C1 counterexample to the claim as stated: with rejoinSession in the
interleaving (master Anna joins, disconnects, Bruno claims the master slot,
Anna rejoins with her old playerId) the session ends up with two records
that are isMaster = true and online = true at the same time. -/
theorem C1_counterexample_thm :
    liveMasterCountAt (runOps c1Ops) "rinascimento-s1" = 2 ∧
    ¬ liveMasterCountAt (runOps c1Ops) "rinascimento-s1" ≤ 1 := by
  exact ⟨by decide, by decide⟩

end Rin
